import Mathlib

/-!
Shallow embedding of the entity-management core of the Prometheus-react
repository, together with theorems settling the specification claims.

Embedded source files:
- src/hooks/useEntityManagement.ts (the generic entity controller hook)
- src/components/Properties.tsx (the inline resource screen owning the
  selection state, its load, delete and selection handlers, and the
  derived all-selected and indeterminate flags)
- src/components/shared/EntityTable.tsx (column-visibility toggling)
- src/components/Inquilinos.tsx (the concrete configuration passed to the
  hook, used to instantiate the generic model at concrete inputs)

Asynchronous calls are modelled by passing the outcome of each network
round trip as an explicit argument: a promise either resolves with the
server envelope, or rejects (the value the TypeScript code observes in a
catch block). Sequential setState effects inside one handler are composed
into the net state transition the handler produces, and the network calls
a handler issues are returned as an explicit trace list.
-/

/-- Model of JavaScript String.prototype.toLowerCase, character by
character (the source only ever feeds it ASCII search terms). -/
def jsToLower (s : String) : String := String.mk (s.data.map Char.toLower)

/-- Model of JavaScript String.prototype.trim: whitespace stripped from
both ends. -/
def jsTrim (s : String) : String :=
  String.mk (((s.data.dropWhile Char.isWhitespace).reverse.dropWhile Char.isWhitespace).reverse)

/-- Helper for substring search: does the first list occur at the head of
the second one. -/
def isPrefixChars : List Char → List Char → Bool
  | [], _ => true
  | _ :: _, [] => false
  | a :: as, b :: bs => a == b && isPrefixChars as bs

/-- Helper for substring search: does the second list occur contiguously
inside the first one. -/
def hasInfixChars : List Char → List Char → Bool
  | [], sub => sub.isEmpty
  | b :: bs, sub => isPrefixChars sub (b :: bs) || hasInfixChars bs sub

/-- Model of JavaScript String.prototype.includes: substring test. -/
def jsIncludes (s sub : String) : Bool := hasInfixChars s.data sub.data

/-- The uniform server envelope from src/types (ApiResponse): a success
flag and an optional payload. The message and error strings are never
read by the embedded handlers and are omitted. -/
structure ApiResponse (α : Type) where
  success : Bool
  data : Option α
deriving DecidableEq

/-- Outcome of an awaited promise: it either resolves with a value or
rejects, which the calling code observes in its catch block. -/
inductive Outcome (α : Type) where
  | ok (v : α)
  | thrown
deriving DecidableEq

/-- Network calls a handler can issue, recorded as a trace. -/
inductive ApiCall (F : Type) where
  | load
  | create (d : F)
  | update (id : Int) (d : F)
  | del (id : Int)
deriving DecidableEq

/-- Configuration record of useEntityManagement
(UseEntityManagementOptions): the per-resource callbacks and messages.
The network functions themselves live in the environment; only their
pure companions (id, name, filter, initial form data, messages) are
carried here. -/
structure EntityConfig (T F : Type) where
  getEntityId : T → Int
  getEntityName : T → String
  filterFunction : T → String → Bool
  initialFormData : F
  loadError : String
  saveError : String
  deleteError : String

/-- The state owned by useEntityManagement: one field per useState. -/
structure HookState (T F : Type) where
  entities : List T
  loading : Bool
  error : Option String
  showForm : Bool
  editingEntity : Option T
  searchTerm : String
  viewingEntity : Option T
  formData : F
deriving DecidableEq

variable {T F R : Type}

/-- Initial hook state: the useState defaults of useEntityManagement. -/
def initialHookState (cfg : EntityConfig T F) : HookState T F where
  entities := []
  loading := true
  error := none
  showForm := false
  editingEntity := none
  searchTerm := ""
  viewingEntity := none
  formData := cfg.initialFormData

/-- loadData from useEntityManagement. It sets loading, clears the error,
awaits loadEntities, copies the items into the collection when the
envelope resolves with success and a payload, sets the load error message
when the promise rejects, and clears loading in the finally block. The
net effect of the successive setState calls on each control path is
recorded. -/
def loadData (cfg : EntityConfig T F) (s : HookState T F)
    (res : Outcome (ApiResponse (List T))) : HookState T F × List (ApiCall F) :=
  match res with
  | Outcome.thrown =>
      ({ s with loading := false, error := some cfg.loadError }, [ApiCall.load])
  | Outcome.ok r =>
      match r.success, r.data with
      | true, some items =>
          ({ s with loading := false, error := none, entities := items }, [ApiCall.load])
      | true, none => ({ s with loading := false, error := none }, [ApiCall.load])
      | false, _ => ({ s with loading := false, error := none }, [ApiCall.load])

/-- handleSubmit from useEntityManagement. It awaits updateEntity when an
entity is being edited and createEntity otherwise; the resolved value is
ignored, whatever envelope it carries, so only a rejected promise reaches
the catch block. After a resolution it awaits loadData, hides the form,
clears the edit binding and resets the form data; a rejection sets the
save error message and leaves everything else as it was. -/
def handleSubmit (cfg : EntityConfig T F) (s : HookState T F)
    (saveRes : Outcome R) (loadRes : Outcome (ApiResponse (List T))) :
    HookState T F × List (ApiCall F) :=
  let call : ApiCall F :=
    match s.editingEntity with
    | some e => ApiCall.update (cfg.getEntityId e) s.formData
    | none => ApiCall.create s.formData
  match saveRes with
  | Outcome.thrown =>
      ({ s with loading := false, error := some cfg.saveError }, [call])
  | Outcome.ok _ =>
      ({ (loadData cfg s loadRes).1 with
          loading := false, showForm := false, editingEntity := none,
          formData := cfg.initialFormData },
        call :: (loadData cfg s loadRes).2)

/-- handleEdit from useEntityManagement: binds the entity, fills the form
from the optional mapper or, when none is given, from the direct cast of
the entity to the form type (castToForm stands for that unchecked cast),
and opens the form. -/
def handleEdit (s : HookState T F) (e : T)
    (mapEntityToFormData : Option (T → F)) (castToForm : T → F) : HookState T F :=
  { s with
      editingEntity := some e,
      formData :=
        match mapEntityToFormData with
        | some m => m e
        | none => castToForm e,
      showForm := true }

/-- handleDelete from useEntityManagement: shows a confirmation prompt
built from the entity name; when the user confirms it awaits
deleteEntity, then loadData, setting the delete error message when the
delete promise rejects; when the user declines nothing runs. The prompt
text is returned alongside the state and the call trace. -/
def handleDelete (cfg : EntityConfig T F) (s : HookState T F)
    (id : Int) (entityName : String) (confirmAnswer : Bool)
    (delRes : Outcome R) (loadRes : Outcome (ApiResponse (List T))) :
    HookState T F × List (ApiCall F) × String :=
  let prompt := "¿Estás seguro de que quieres eliminar " ++ entityName ++ "?"
  if confirmAnswer then
    match delRes with
    | Outcome.thrown =>
        ({ s with loading := false, error := some cfg.deleteError },
          [ApiCall.del id], prompt)
    | Outcome.ok _ =>
        ({ (loadData cfg s loadRes).1 with loading := false },
          ApiCall.del id :: (loadData cfg s loadRes).2, prompt)
  else (s, [], prompt)

/-- resetForm from useEntityManagement. -/
def resetForm (cfg : EntityConfig T F) (s : HookState T F) : HookState T F :=
  { s with formData := cfg.initialFormData }

/-- handleCancel from useEntityManagement: hides the form, clears the
edit binding, resets the form data. -/
def handleCancel (cfg : EntityConfig T F) (s : HookState T F) : HookState T F :=
  { s with showForm := false, editingEntity := none, formData := cfg.initialFormData }

/-- handleView from useEntityManagement: binds the detail view to the
entity; no other field is touched. -/
def handleView (s : HookState T F) (e : T) : HookState T F :=
  { s with viewingEntity := some e }

/-- The setShowForm setter returned by the hook, as used by the resource
screens to open the create form. -/
def setShowForm (s : HookState T F) (b : Bool) : HookState T F :=
  { s with showForm := b }

/-- filteredEntities from useEntityManagement: when the trimmed search
term is empty every entity is returned; otherwise the entities are
filtered through the configured predicate applied to the lower-cased,
untrimmed term. -/
def filteredEntities (cfg : EntityConfig T F) (entities : List T)
    (searchTerm : String) : List T :=
  if jsTrim searchTerm = "" then entities
  else entities.filter (fun e => cfg.filterFunction e (jsToLower searchTerm))

/-- Inquilino entity from src/types. -/
structure Inquilino where
  id : Int
  nombre : String
  email : String
  telefono : String
  documento : Option String
deriving DecidableEq

/-- InquilinoFormData from src/types. -/
structure InquilinoFormData where
  nombre : String
  email : String
  telefono : String
  documento : String
deriving DecidableEq

/-- The configuration Inquilinos.tsx passes to useEntityManagement: id
and name projections, the substring filter over nombre, email, telefono
and the optional documento, the empty initial form, and the three
resource-scoped error messages. -/
def inquilinoConfig : EntityConfig Inquilino InquilinoFormData where
  getEntityId i := i.id
  getEntityName i := i.nombre
  filterFunction i term :=
    jsIncludes (jsToLower i.nombre) term ||
    jsIncludes (jsToLower i.email) term ||
    jsIncludes (jsToLower i.telefono) term ||
    (match i.documento with
     | some d => jsIncludes (jsToLower d) term
     | none => false)
  initialFormData := { nombre := "", email := "", telefono := "", documento := "" }
  loadError := "Error al cargar los inquilinos"
  saveError := "Error al guardar el inquilino"
  deleteError := "Error al eliminar el inquilino"

/-- The mapper Inquilinos.tsx supplies to handleEdit: copies the fields
and defaults a missing documento to the empty string. -/
def mapInquilinoToForm (i : Inquilino) : InquilinoFormData :=
  { nombre := i.nombre, email := i.email, telefono := i.telefono,
    documento := i.documento.getD "" }

/-- Property entity from src/types. -/
structure Property where
  id : Int
  nombre : String
  direccion : String
  descripcion : String
  rentado : Bool
deriving DecidableEq

/-- PropertyFormData from src/types. -/
structure PropertyFormData where
  nombre : String
  direccion : String
  descripcion : String
  rentado : Bool
deriving DecidableEq

/-- The component state of Properties.tsx: one field per useState,
including the selection list absent from the generic hook. -/
structure PropState where
  properties : List Property
  loading : Bool
  error : Option String
  showForm : Bool
  editingProperty : Option Property
  searchTerm : String
  selectedProperties : List Int
  viewingProperty : Option Property
  formData : PropertyFormData
deriving DecidableEq

/-- Initial state of Properties.tsx (useState defaults). -/
def initialPropState : PropState where
  properties := []
  loading := true
  error := none
  showForm := false
  editingProperty := none
  searchTerm := ""
  selectedProperties := []
  viewingProperty := none
  formData := { nombre := "", direccion := "", descripcion := "", rentado := false }

/-- loadProperties from Properties.tsx: the inline twin of loadData with
the Properties load-error literal. No statement in its body touches
selectedProperties. -/
def loadProperties (s : PropState) (res : Outcome (ApiResponse (List Property))) :
    PropState × List (ApiCall PropertyFormData) :=
  match res with
  | Outcome.thrown =>
      ({ s with loading := false, error := some "Error al cargar las propiedades" },
        [ApiCall.load])
  | Outcome.ok r =>
      match r.success, r.data with
      | true, some items =>
          ({ s with loading := false, error := none, properties := items }, [ApiCall.load])
      | true, none => ({ s with loading := false, error := none }, [ApiCall.load])
      | false, _ => ({ s with loading := false, error := none }, [ApiCall.load])

/-- handleDelete from Properties.tsx: fixed confirmation text, then
deleteProperty followed by loadProperties; the delete-error literal on a
rejection. No statement in its body touches selectedProperties. -/
def propHandleDelete (s : PropState) (id : Int) (confirmAnswer : Bool)
    (delRes : Outcome R) (loadRes : Outcome (ApiResponse (List Property))) :
    PropState × List (ApiCall PropertyFormData) × String :=
  let prompt := "¿Estás seguro de que quieres eliminar esta propiedad?"
  if confirmAnswer then
    match delRes with
    | Outcome.thrown =>
        ({ s with loading := false, error := some "Error al eliminar la propiedad" },
          [ApiCall.del id], prompt)
    | Outcome.ok _ =>
        ({ (loadProperties s loadRes).1 with loading := false },
          ApiCall.del id :: (loadProperties s loadRes).2, prompt)
  else (s, [], prompt)

/-- filteredProperties from Properties.tsx: all properties when the
trimmed term is empty, otherwise the substring filter over nombre,
direccion and descripcion with the lower-cased, untrimmed term. -/
def filteredProperties (s : PropState) : List Property :=
  if jsTrim s.searchTerm = "" then s.properties
  else s.properties.filter (fun p =>
    jsIncludes (jsToLower p.nombre) (jsToLower s.searchTerm) ||
    jsIncludes (jsToLower p.direccion) (jsToLower s.searchTerm) ||
    jsIncludes (jsToLower p.descripcion) (jsToLower s.searchTerm))

/-- handleSelectAll from Properties.tsx: checking the header checkbox
selects every filtered id, unchecking empties the selection. -/
def handleSelectAll (s : PropState) (checked : Bool) : PropState :=
  if checked then
    { s with selectedProperties := (filteredProperties s).map Property.id }
  else { s with selectedProperties := [] }

/-- handleSelectProperty from Properties.tsx: toggles one id in the
selection list. -/
def handleSelectProperty (s : PropState) (id : Int) : PropState :=
  { s with selectedProperties :=
      if s.selectedProperties.contains id then
        s.selectedProperties.filter (fun pId => pId ≠ id)
      else s.selectedProperties ++ [id] }

/-- isAllSelected from Properties.tsx: the filtered list is non-empty and
the selection LENGTH equals the filtered LENGTH (a cardinality test, not
a set-inclusion test). -/
def isAllSelected (filtered : List Property) (selected : List Int) : Bool :=
  decide (0 < filtered.length) && selected.length == filtered.length

/-- isIndeterminate from Properties.tsx: the selection is non-empty and
strictly shorter than the filtered list. -/
def isIndeterminate (filtered : List Property) (selected : List Int) : Bool :=
  decide (0 < selected.length) && decide (selected.length < filtered.length)

/-- toggleColumn from EntityTable.tsx: removes a visible column only
while more than one column is visible, adds a hidden column, and
otherwise leaves the set alone. -/
def toggleColumn (visibleColumns : Finset String) (columnKey : String) : Finset String :=
  if columnKey ∈ visibleColumns ∧ 1 < visibleColumns.card then
    visibleColumns.erase columnKey
  else if columnKey ∉ visibleColumns then
    insert columnKey visibleColumns
  else visibleColumns

/-- The disabled condition of a column checkbox in EntityTable.tsx: the
set has exactly one element and this column is it. -/
def columnCheckboxDisabled (visibleColumns : Finset String) (columnKey : String) : Bool :=
  visibleColumns.card == 1 && decide (columnKey ∈ visibleColumns)

/-- The initial visible-column set of EntityTable.tsx: every configured
column key. -/
def initialVisibleColumns (columns : List String) : Finset String := columns.toFinset

/-- The visible-column sets reachable in EntityTable.tsx: the initial set
followed by any sequence of toggles. -/
inductive VisibleReachable (columns : List String) : Finset String → Prop
  | init : VisibleReachable columns (initialVisibleColumns columns)
  | step (v : Finset String) (k : String) :
      VisibleReachable columns v → VisibleReachable columns (toggleColumn v k)

/-- Concrete inquilino used to evaluate the model at explicit inputs. -/
def iAb : Inquilino :=
  { id := 1, nombre := "ab", email := "x", telefono := "y", documento := none }

/-- Concrete inquilino named after the deletion scenario of the spec. -/
def iJuan : Inquilino :=
  { id := 5, nombre := "Juan Pérez", email := "jp@mail.test", telefono := "555",
    documento := none }

/-- Concrete property with id 1. -/
def prop1 : Property :=
  { id := 1, nombre := "Casa A", direccion := "Calle 1", descripcion := "da",
    rentado := false }

/-- Concrete property with id 5. -/
def prop5 : Property :=
  { id := 5, nombre := "Casa B", direccion := "Calle 5", descripcion := "db",
    rentado := true }

/-- A hook state in the middle of editing iJuan with modified form
fields, used to evaluate handleSubmit at an explicit input. -/
def editingJuanState : HookState Inquilino InquilinoFormData :=
  { entities := [iJuan], loading := false, error := none, showForm := true,
    editingEntity := some iJuan, searchTerm := "", viewingEntity := none,
    formData := { nombre := "Juan Editado", email := "nuevo@mail.test",
                  telefono := "777", documento := "D1" } }

/-- A Properties state where property 5 exists and is selected, used to
evaluate the delete and refresh flow at an explicit input. -/
def selectedFiveState : PropState :=
  { initialPropState with
      properties := [prop1, prop5], loading := false,
      selectedProperties := [5] }

/-- The state handleSubmit produces from editingJuanState when the update
promise resolves with a success-false envelope (the server rejecting the
save) and the subsequent reload resolves with a changed item list. -/
def submitRejectedResult : HookState Inquilino InquilinoFormData :=
  (handleSubmit inquilinoConfig editingJuanState
    (Outcome.ok ({ success := false, data := none } : ApiResponse Inquilino))
    (Outcome.ok { success := true, data := some [iJuan, iAb] })).1

/-- The state reached from the initial hook state by opening the edit
form for iJuan and then opening the detail view for iAb. -/
def bothModalsState : HookState Inquilino InquilinoFormData :=
  handleView
    (handleEdit (initialHookState inquilinoConfig) iJuan
      (some mapInquilinoToForm) mapInquilinoToForm)
    iAb

/-- The state the Properties delete flow produces from selectedFiveState
when the user confirms the deletion of id 5, the delete resolves, and the
reload returns only property 1. -/
def deleteFiveResult : PropState :=
  (propHandleDelete selectedFiveState 5 true
    (Outcome.ok ({ success := true, data := none } : ApiResponse Unit))
    (Outcome.ok { success := true, data := some [prop1] })).1

/-- Helper: loadData always issues exactly the one load call. -/
theorem loadData_calls (cfg : EntityConfig T F) (s : HookState T F)
    (res : Outcome (ApiResponse (List T))) :
    (loadData cfg s res).2 = [ApiCall.load] := by
  rcases res with ⟨su, da⟩ | _
  · cases su <;> cases da <;> simp [loadData]
  · simp [loadData]

/-- Helper: loadProperties never touches the selection list. -/
theorem loadProperties_selection (s : PropState)
    (res : Outcome (ApiResponse (List Property))) :
    (loadProperties s res).1.selectedProperties = s.selectedProperties := by
  rcases res with ⟨su, da⟩ | _
  · cases su <;> cases da <;> simp [loadProperties]
  · simp [loadProperties]

/-- Helper: a toggle never empties a non-empty visible-column set. -/
theorem toggleColumn_nonempty (v : Finset String) (k : String)
    (h : v.Nonempty) : (toggleColumn v k).Nonempty := by
  unfold toggleColumn
  split
  · rename_i hc
    have hcard := Finset.card_erase_of_mem hc.1
    have hpos : 0 < (v.erase k).card := by omega
    exact Finset.card_pos.mp hpos
  · split
    · exact Finset.insert_nonempty k v
    · exact h

/-- Claim C10: when the user declines the deletion confirmation,
handleDelete issues no network call at all and returns every field of the
controller state exactly as it was. -/
theorem C10_decline_delete_noop (cfg : EntityConfig T F) (s : HookState T F)
    (id : Int) (name : String) (delRes : Outcome R)
    (loadRes : Outcome (ApiResponse (List T))) :
    (handleDelete cfg s id name false delRes loadRes).1 = s ∧
    (handleDelete cfg s id name false delRes loadRes).2.1 = [] := by
  constructor <;> simp [handleDelete]

/-- Claim C3: loadData invokes the configured load function; when the
envelope resolves successfully with items it replaces the collection and
clears the error; when the promise rejects it sets the static load-error
message and leaves the previous collection untouched; and on every path
the loading flag ends false. -/
theorem C3_loadData_spec (cfg : EntityConfig T F) (s : HookState T F)
    (res : Outcome (ApiResponse (List T))) :
    (loadData cfg s res).2 = [ApiCall.load] ∧
    (∀ items, res = Outcome.ok { success := true, data := some items } →
      (loadData cfg s res).1.entities = items ∧ (loadData cfg s res).1.error = none) ∧
    (res = Outcome.thrown →
      (loadData cfg s res).1.error = some cfg.loadError ∧
      (loadData cfg s res).1.entities = s.entities) ∧
    (loadData cfg s res).1.loading = false := by
  rcases res with ⟨su, da⟩ | _
  · cases su <;> rcases da with _ | items <;> simp [loadData]
  · simp [loadData]

/-- Witness for C3 at concrete inputs: a successful load replaces the
collection with the loaded items, and a rejected load sets the configured
load-error message. -/
theorem C3_loadData_spec_witness :
    (loadData inquilinoConfig (initialHookState inquilinoConfig)
        (Outcome.ok { success := true, data := some [iJuan] })).1.entities = [iJuan] ∧
    (loadData inquilinoConfig (initialHookState inquilinoConfig)
        Outcome.thrown).1.error = some inquilinoConfig.loadError :=
  ⟨((C3_loadData_spec inquilinoConfig (initialHookState inquilinoConfig)
      (Outcome.ok { success := true, data := some [iJuan] })).2.1 [iJuan] rfl).1,
   ((C3_loadData_spec inquilinoConfig (initialHookState inquilinoConfig)
      Outcome.thrown).2.2.1 rfl).1⟩

/-- Claim C4 counterexample: with id 5 selected, a refresh whose reload
returns only property 1 leaves the selection at [5], not at the
intersection of [5] with the new id set, which is empty. -/
theorem C4_counterexample :
    ¬ ((loadProperties selectedFiveState
          (Outcome.ok { success := true, data := some [prop1] })).1.selectedProperties =
        List.filter (fun i => (List.map Property.id [prop1]).contains i)
          selectedFiveState.selectedProperties) := by
  decide

/-- Claim C4 amended: a refresh leaves the selection list exactly as it
was; ids of entities that vanished from the collection are not dropped. -/
theorem C4_amended_refresh_keeps_selection (s : PropState)
    (res : Outcome (ApiResponse (List Property))) :
    (loadProperties s res).1.selectedProperties = s.selectedProperties :=
  loadProperties_selection s res

/-- Claim C5 counterexample: with the stale selection [99] and the
filtered list [prop1], the all-selected flag is true although the
selection is not a superset of the filtered id set, refuting the
set-inclusion characterization. -/
theorem C5_counterexample :
    ¬ ((isAllSelected [prop1] [99] = true) ↔
        ([prop1] ≠ ([] : List Property) ∧
         ∀ i ∈ List.map Property.id [prop1], i ∈ ([99] : List Int))) := by
  decide

/-- Claim C5 amended: the flags compare cardinalities, not sets: the
all-selected flag is true exactly when the filtered list is non-empty and
the selection has the same length; the indeterminate flag is true exactly
when the selection is non-empty and strictly shorter; the two flags are
never both true. -/
theorem C5_amended_flags (filtered : List Property) (selected : List Int) :
    (isAllSelected filtered selected = true ↔
      filtered ≠ [] ∧ selected.length = filtered.length) ∧
    (isIndeterminate filtered selected = true ↔
      selected ≠ [] ∧ selected.length < filtered.length) ∧
    (isAllSelected filtered selected = false ∨
      isIndeterminate filtered selected = false) := by
  refine ⟨?_, ?_, ?_⟩
  · simp [isAllSelected, List.length_pos]
  · simp [isIndeterminate, List.length_pos]
  · rcases Nat.lt_or_ge selected.length filtered.length with h | h
    · left; simp only [isAllSelected, Bool.and_eq_false_iff]; right; simp; omega
    · right; simp only [isIndeterminate, Bool.and_eq_false_iff]; right; simp; omega

/-- Claim C1 counterexample: when the update call resolves with a
success-false envelope, handleSubmit ignores the envelope entirely: the
modal does not remain open, the form data is reset, no save-error message
is set and the collection is replaced by the reload, refuting every
conjunct of the claim at this input. -/
theorem C1_counterexample :
    ¬ (submitRejectedResult.showForm = true ∧
       submitRejectedResult.formData = editingJuanState.formData ∧
       submitRejectedResult.error = some inquilinoConfig.saveError ∧
       submitRejectedResult.entities = editingJuanState.entities) := by
  decide

/-- Claim C1 amended: the save failure the code reacts to is a rejected
promise, not a success-false envelope. When the update or create promise
rejects, the modal stays open, the form data, edit binding and collection
are unchanged, the error slot holds the save-error string, and no reload
is issued. -/
theorem C1_amended_submit_rejection (cfg : EntityConfig T F) (s : HookState T F)
    (loadRes : Outcome (ApiResponse (List T))) :
    (handleSubmit cfg s (Outcome.thrown : Outcome R) loadRes).1.showForm = s.showForm ∧
    (handleSubmit cfg s (Outcome.thrown : Outcome R) loadRes).1.formData = s.formData ∧
    (handleSubmit cfg s (Outcome.thrown : Outcome R) loadRes).1.error =
      some cfg.saveError ∧
    (handleSubmit cfg s (Outcome.thrown : Outcome R) loadRes).1.entities = s.entities ∧
    (handleSubmit cfg s (Outcome.thrown : Outcome R) loadRes).1.editingEntity =
      s.editingEntity ∧
    ApiCall.load ∉ (handleSubmit cfg s (Outcome.thrown : Outcome R) loadRes).2 := by
  cases h : s.editingEntity <;> simp [handleSubmit, h]

/-- Claim C2 counterexample: for the search term built of a space and the
letter b, the claimed trimmed-and-lower-cased normalization would match
the entity named ab, but the code passes the lower-cased, untrimmed term
to the predicate and matches nothing. -/
theorem C2_counterexample :
    ¬ (filteredEntities inquilinoConfig [iAb] " b" =
        List.filter
          (fun e => inquilinoConfig.filterFunction e (jsToLower (jsTrim " b")))
          [iAb]) := by
  decide

/-- Claim C2 amended: the filtered view is an order-preserving sublist of
the collection; for a term whose trim is empty it is the whole
collection; and for any other term it keeps exactly the entities
satisfying the predicate applied to the lower-cased but NOT trimmed
term. -/
theorem C2_amended_filter (cfg : EntityConfig T F) (entities : List T) (q : String) :
    List.Sublist (filteredEntities cfg entities q) entities ∧
    filteredEntities cfg entities "" = entities ∧
    (jsTrim q = "" → filteredEntities cfg entities q = entities) ∧
    (jsTrim q ≠ "" →
      filteredEntities cfg entities q =
        entities.filter (fun e => cfg.filterFunction e (jsToLower q))) := by
  have hempty : jsTrim "" = "" := by decide
  refine ⟨?_, ?_, ?_, ?_⟩
  · unfold filteredEntities
    split
    · exact List.Sublist.refl entities
    · exact List.filter_sublist entities
  · simp [filteredEntities, hempty]
  · intro h; simp [filteredEntities, h]
  · intro h; simp [filteredEntities, h]

/-- Witness for C2 at a concrete input: for the non-blank term b the
filtered view equals the predicate filter with the lower-cased term. -/
theorem C2_amended_filter_witness :
    filteredEntities inquilinoConfig [iAb] "b" =
      List.filter (fun e => inquilinoConfig.filterFunction e (jsToLower "b")) [iAb] :=
  (C2_amended_filter inquilinoConfig [iAb] "b").2.2.2 (by decide)

/-- Claim C6: when an entity is bound for editing, submit issues the
update call at that entity's id with the current form data, otherwise the
create call with the current form data; and whenever the save promise
resolves it issues the reload, hides the form, clears the edit binding
and resets the form data to the configured initial values. -/
theorem C6_handleSubmit_success (cfg : EntityConfig T F) (s : HookState T F)
    (r : R) (loadRes : Outcome (ApiResponse (List T))) :
    (∀ e, s.editingEntity = some e →
      (handleSubmit cfg s (Outcome.ok r) loadRes).2 =
        [ApiCall.update (cfg.getEntityId e) s.formData, ApiCall.load]) ∧
    (s.editingEntity = none →
      (handleSubmit cfg s (Outcome.ok r) loadRes).2 =
        [ApiCall.create s.formData, ApiCall.load]) ∧
    (handleSubmit cfg s (Outcome.ok r) loadRes).1.showForm = false ∧
    (handleSubmit cfg s (Outcome.ok r) loadRes).1.editingEntity = none ∧
    (handleSubmit cfg s (Outcome.ok r) loadRes).1.formData = cfg.initialFormData := by
  refine ⟨?_, ?_, ?_, ?_, ?_⟩
  · intro e he; simp [handleSubmit, he, loadData_calls]
  · intro he; simp [handleSubmit, he, loadData_calls]
  · simp [handleSubmit]
  · simp [handleSubmit]
  · simp [handleSubmit]

/-- Witness for C6 at a concrete input: submitting while editing iJuan
issues the update call at id 5 followed by the reload. -/
theorem C6_handleSubmit_success_witness :
    (handleSubmit inquilinoConfig editingJuanState
        (Outcome.ok ({ success := true, data := some iJuan } : ApiResponse Inquilino))
        (Outcome.ok { success := true, data := some [iJuan] })).2 =
      [ApiCall.update 5 editingJuanState.formData, ApiCall.load] :=
  (C6_handleSubmit_success inquilinoConfig editingJuanState
      ({ success := true, data := some iJuan } : ApiResponse Inquilino)
      (Outcome.ok { success := true, data := some [iJuan] })).1 iJuan rfl

/-- Claim C7 counterexample: from the initial state, opening the edit
form for iJuan and then the detail view for iAb yields a reachable state
in which the form modal and the detail binding are BOTH active, refuting
the mutual exclusion of the modal states. -/
theorem C7_counterexample :
    ¬ (bothModalsState.showForm = false ∨ bothModalsState.viewingEntity = none) := by
  decide

/-- Claim C7 amended: the form modal and the detail view are independent
pieces of state. handleEdit opens the form and binds the entity without
touching the detail binding; handleView binds the detail view without
touching the form or the edit binding; so invoking both leaves both
active, and exclusivity is not enforced. -/
theorem C7_amended_modal_independence (s : HookState T F) (e eview : T)
    (mapper : Option (T → F)) (castF : T → F) :
    (handleEdit s e mapper castF).showForm = true ∧
    (handleEdit s e mapper castF).editingEntity = some e ∧
    (handleEdit s e mapper castF).viewingEntity = s.viewingEntity ∧
    (handleView s eview).viewingEntity = some eview ∧
    (handleView s eview).showForm = s.showForm ∧
    (handleView s eview).editingEntity = s.editingEntity := by
  exact ⟨rfl, rfl, rfl, rfl, rfl, rfl⟩

/-- Claim C8: toggling the sole remaining visible column is a no-op and
its checkbox is rendered disabled exactly then; toggling a hidden column
adds it; and every reachable visible-column set of a table with at least
one configured column is non-empty. -/
theorem C8_column_visibility (columns : List String) (v : Finset String) (k : String) :
    (v.card = 1 → k ∈ v → toggleColumn v k = v) ∧
    (k ∉ v → toggleColumn v k = insert k v) ∧
    (columnCheckboxDisabled v k = true ↔ v.card = 1 ∧ k ∈ v) ∧
    (columns ≠ [] → VisibleReachable columns v → v.Nonempty) := by
  refine ⟨?_, ?_, ?_, ?_⟩
  · intro h1 hk; simp [toggleColumn, hk, h1]
  · intro hk; simp [toggleColumn, hk]
  · simp [columnCheckboxDisabled]
  · intro hcols hreach
    induction hreach with
    | init =>
        cases columns with
        | nil => exact absurd rfl hcols
        | cons a as => exact ⟨a, by simp [initialVisibleColumns]⟩
    | step w kk hw ih => exact toggleColumn_nonempty w kk ih

/-- Witness for C8 at concrete inputs: with the single visible column
nombre, toggling nombre changes nothing, toggling the hidden column email
adds it, and the initial set is non-empty. -/
theorem C8_column_visibility_witness :
    toggleColumn (initialVisibleColumns ["nombre"]) "nombre" =
      initialVisibleColumns ["nombre"] ∧
    toggleColumn (initialVisibleColumns ["nombre"]) "email" =
      insert "email" (initialVisibleColumns ["nombre"]) ∧
    (initialVisibleColumns ["nombre"]).Nonempty :=
  ⟨(C8_column_visibility ["nombre"] (initialVisibleColumns ["nombre"]) "nombre").1
      (by decide) (by decide),
   (C8_column_visibility ["nombre"] (initialVisibleColumns ["nombre"]) "email").2.1
      (by decide),
   (C8_column_visibility ["nombre"] (initialVisibleColumns ["nombre"]) "nombre").2.2.2
      (by simp) VisibleReachable.init⟩

/-- Claim C9 counterexample: in the Properties screen, after the user
confirms the deletion of id 5, the delete resolves and the reload returns
a collection without id 5, the id is gone from the collection but is
still present in the selection list: no code removes a deleted id from
the selection, refuting the selection conjunct of the claim. -/
theorem C9_counterexample :
    5 ∈ deleteFiveResult.selectedProperties ∧
    (List.map Property.id deleteFiveResult.properties).contains 5 = false := by
  decide

/-- Claim C9 amended: handleDelete shows a confirmation prompt containing
the display name and issues the delete call only on confirmation; when
the delete resolves it issues the reload, and when the reloaded items
carry no entity with the deleted id the post-refresh collection carries
none either; when the delete rejects the delete-error message is set. The
selection list, which lives in the Properties screen, is NOT updated by
the delete and refresh flow and may retain the deleted id. -/
theorem C9_amended_delete (cfg : EntityConfig T F) (s : HookState T F)
    (id : Int) (name : String) (delRes : Outcome R)
    (loadRes : Outcome (ApiResponse (List T)))
    (ps : PropState) (pid : Int) (conf : Bool) (pDelRes : Outcome R)
    (pLoadRes : Outcome (ApiResponse (List Property))) :
    (∃ pre suf,
      (handleDelete cfg s id name true delRes loadRes).2.2 = pre ++ name ++ suf) ∧
    (handleDelete cfg s id name false delRes loadRes).2.1 = [] ∧
    (∀ r : R, delRes = Outcome.ok r →
      (handleDelete cfg s id name true delRes loadRes).2.1 =
        [ApiCall.del id, ApiCall.load]) ∧
    (delRes = Outcome.thrown →
      (handleDelete cfg s id name true delRes loadRes).2.1 = [ApiCall.del id] ∧
      (handleDelete cfg s id name true delRes loadRes).1.error =
        some cfg.deleteError) ∧
    (∀ (r : R) (items : List T), delRes = Outcome.ok r →
      loadRes = Outcome.ok { success := true, data := some items } →
      (∀ t ∈ items, cfg.getEntityId t ≠ id) →
      ∀ t ∈ (handleDelete cfg s id name true delRes loadRes).1.entities,
        cfg.getEntityId t ≠ id) ∧
    (propHandleDelete ps pid conf pDelRes pLoadRes).1.selectedProperties =
      ps.selectedProperties := by
  refine ⟨?_, ?_, ?_, ?_, ?_, ?_⟩
  · rcases delRes with r | _
    · exact ⟨"¿Estás seguro de que quieres eliminar ", "?", rfl⟩
    · exact ⟨"¿Estás seguro de que quieres eliminar ", "?", rfl⟩
  · simp [handleDelete]
  · intro r h; subst h; simp [handleDelete, loadData_calls]
  · intro h; subst h; simp [handleDelete]
  · intro r items h1 h2 hno t ht
    subst h1; subst h2
    have hent : (handleDelete cfg s id name true (Outcome.ok r)
        (Outcome.ok { success := true, data := some items })).1.entities = items := by
      simp [handleDelete, loadData]
    rw [hent] at ht
    exact hno t ht
  · cases conf
    · simp [propHandleDelete]
    · rcases pDelRes with r | _
      · simp [propHandleDelete, loadProperties_selection]
      · simp [propHandleDelete]

/-- Witness for C9 at concrete inputs: deleting id 5 named Juan Pérez
shows a prompt containing Juan Pérez, and after a confirmed successful
delete whose reload returns only iAb, no entity with id 5 remains in the
collection. -/
theorem C9_amended_delete_witness :
    (∃ pre suf,
      (handleDelete inquilinoConfig (initialHookState inquilinoConfig) 5 "Juan Pérez"
          true (Outcome.ok ({ success := true, data := none } : ApiResponse Unit))
          (Outcome.ok { success := true, data := some [iAb] })).2.2 =
        pre ++ "Juan Pérez" ++ suf) ∧
    (∀ t ∈ (handleDelete inquilinoConfig (initialHookState inquilinoConfig) 5
          "Juan Pérez" true
          (Outcome.ok ({ success := true, data := none } : ApiResponse Unit))
          (Outcome.ok { success := true, data := some [iAb] })).1.entities,
        inquilinoConfig.getEntityId t ≠ 5) :=
  ⟨(C9_amended_delete inquilinoConfig (initialHookState inquilinoConfig) 5 "Juan Pérez"
      (Outcome.ok ({ success := true, data := none } : ApiResponse Unit))
      (Outcome.ok { success := true, data := some [iAb] })
      initialPropState 5 true
      (Outcome.ok ({ success := true, data := none } : ApiResponse Unit))
      (Outcome.ok { success := true, data := some [prop1] })).1,
   (C9_amended_delete inquilinoConfig (initialHookState inquilinoConfig) 5 "Juan Pérez"
      (Outcome.ok ({ success := true, data := none } : ApiResponse Unit))
      (Outcome.ok { success := true, data := some [iAb] })
      initialPropState 5 true
      (Outcome.ok ({ success := true, data := none } : ApiResponse Unit))
      (Outcome.ok { success := true, data := some [prop1] })).2.2.2.2.1
      { success := true, data := none } [iAb] rfl rfl (by decide)⟩
